import Mathlib

/-!
Verification of the bulk-enumeration / destructive-lifecycle core of
jon-the-dev/aws-cloud-tools, shallowly embedded from:
  src/s3/s3_bucket_nuke.py   (snapshot exporter + batch destroyer)
  src/logs/manage_cw_logs.py (paginated enumerator, retention guard,
                              async export poller, log-group delete)
Machine strings are Lean `String`; pagination providers are modelled as
response sequences indexed by the fetch number; loops that may spin are
given explicit fuel and return `none` when the fuel runs out.
-/

/-- The path separator character used by the POSIX path routines. -/
def sepChar : Char := '/'

/-- The path separator as a string. -/
def sepStr : String := "/"

/-- Boolean test embedding Python `s.endswith("/")`: does the last
character of `s` equal the separator? -/
def endsWithSep (s : String) : Bool := s.data.getLast? == some sepChar

/-- Boolean test embedding the absolute-path test of `posixpath.join`:
does `s` begin with the separator? -/
def startsWithSep (s : String) : Bool := s.data.head? == some sepChar

/-- Embedding of `os.path.join(a, b)` (POSIX, two components), as called at
s3_bucket_nuke.py lines 28 and 40: if `b` is absolute it wins; if `a` is
empty or already ends with the separator the parts are concatenated
directly; otherwise a separator is inserted. -/
def osPathJoin (a b : String) : String :=
  if startsWithSep b then b
  else if a = sepStr ∨ a.data = [] ∨ endsWithSep a then a ++ b
  else a ++ sepStr ++ b

/-- Local target path computed by `download_file_versioned`
(s3_bucket_nuke.py line 28): `os.path.join(download_dir, key)`.  The
`version_id` parameter of the source function is used only in the
`ExtraArgs` of the provider call, never in the path. -/
def download_path_versioned (download_dir key : String) (version_id : String) :
    String :=
  osPathJoin download_dir key

/-- Local target path computed by `download_file`
(s3_bucket_nuke.py line 40): `os.path.join(download_dir, key)`. -/
def download_path (download_dir key : String) : String :=
  osPathJoin download_dir key

/-- Effects of one download call on the local filesystem. -/
inductive DlEffect where
  /-- `os.makedirs(os.path.dirname(download_path), exist_ok=True)`:
  create the parent directory of the given path. -/
  | ensureParentDir (ofPath : String)
  /-- `s3_client.download_file(...)`: write the object body at the path. -/
  | fsWrite (path : String)
deriving DecidableEq

/-- Embedding of `download_file` (s3_bucket_nuke.py lines 39-43): compute
the target path, make its parent directory, and download.  The function
never consults the existing filesystem; the write is unconditional. -/
def download_file (download_dir key : String) : List DlEffect :=
  let p := download_path download_dir key
  [DlEffect.ensureParentDir p, DlEffect.fsWrite p]

/-- Embedding of `download_file_versioned` (s3_bucket_nuke.py lines
27-36): identical filesystem behaviour, with the version only forwarded
to the provider call, not the path. -/
def download_file_versioned (download_dir key version_id : String) :
    List DlEffect :=
  let p := download_path_versioned download_dir key version_id
  [DlEffect.ensureParentDir p, DlEffect.fsWrite p]

/-! Concrete handles used as test inputs. -/

/-- Example collection (bucket) name. -/
def exBucket : String := "mybucket"

/-- Example object key. -/
def exKey : String := "file.txt"

/-- Example folder-marker key (ends in the separator). -/
def exFolderKey : String := "logs/"

/-- Example first version id. -/
def exV1 : String := "v1"

/-- Example second version id of the same key. -/
def exV2 : String := "v2"

/-! Embedding of `delete_log_group` (manage_cw_logs.py lines 284-294). -/

/-- What the provider call inside the `try` block did. -/
inductive DelOutcome where
  /-- `client.delete_log_group` returned normally (the success log line). -/
  | deleted
  /-- the call raised; the handler logged the error and swallowed it. -/
  | failed
deriving DecidableEq

/-- Embedding of `delete_log_group`: attempt the provider delete; whether
the call succeeds or raises, control falls through to the unconditional
`sys.exit(1)` placed after (outside) the `try`/`except`.  Returns the
outcome together with the process exit status. -/
def delete_log_group (callSucceeds : Bool) : DelOutcome × Nat :=
  if callSucceeds then (DelOutcome.deleted, 1) else (DelOutcome.failed, 1)

/-! Embedding of `set_retention` (manage_cw_logs.py lines 239-281). -/

/-- One log group as reported by `describe_log_groups`: its name and its
`retentionInDays` field when present (`none` models the key being absent,
which the script displays as "Never"). -/
structure LogGroup where
  logGroupName : String
  retentionInDays : Option Nat
deriving DecidableEq

/-- Observable events of a `set_retention` run, in order. -/
inductive RetEvent where
  /-- `client.describe_log_groups(logGroupNamePrefix=...)`. -/
  | describeLogGroups (namePref : String)
  /-- `download_logs_for_group(client, log_group, download_days, ...)`:
  the snapshot export that precedes any mutation. -/
  | downloadAllLogs (log_group : String) (days : Nat)
  /-- `client.put_retention_policy(logGroupName=..., retentionInDays=...)`. -/
  | putRetentionPolicy (log_group : String) (days : Int)
deriving DecidableEq

/-- Result reported by the guard. -/
inductive RetStatus where
  | skipped
  | applied
deriving DecidableEq

/-- Embedding of the current-retention scan at manage_cw_logs.py lines
250-257: walk the describe response, stop at the first group whose name
equals `log_group`; its `retentionInDays` when present, else "Never"
(modelled as `none`). -/
def currentRetention (log_group : String) (groups : List LogGroup) :
    Option Nat :=
  match groups.find? (fun g => g.logGroupName == log_group) with
  | some g => g.retentionInDays
  | none => none

/-- The lookback used to approximate "all logs" at line 266. -/
def download_days : Nat := 10000

/-- Embedding of `set_retention`.  `groups` is the response the
`describe_log_groups` call would return.  Produces the guard's status and
the ordered list of provider-visible events. -/
def set_retention (log_group : String) (retention : Int) (if_never : Bool)
    (groups : List LogGroup) : RetStatus × List RetEvent :=
  if if_never then
    match currentRetention log_group groups with
    | some _ =>
        (RetStatus.skipped, [RetEvent.describeLogGroups log_group])
    | none =>
        (RetStatus.applied,
          [RetEvent.describeLogGroups log_group,
           RetEvent.downloadAllLogs log_group download_days,
           RetEvent.putRetentionPolicy log_group retention])
  else
    (RetStatus.applied,
      [RetEvent.downloadAllLogs log_group download_days,
       RetEvent.putRetentionPolicy log_group retention])

/-! Action-trace embedding of the bucket-nuke run
(`download_objects` lines 46-114 and `delete_objects_and_bucket`
lines 117-187 of s3_bucket_nuke.py), versioned branch. -/

/-- One entry of a `list_object_versions` page: an object version or a
delete marker, as the pair (Key, VersionId). -/
structure VersionEntry where
  key : String
  versionId : String
deriving DecidableEq

/-- One page of the `list_object_versions` paginator: its `Versions` and
`DeleteMarkers` arrays. -/
structure VPage where
  versions : List VersionEntry
  deleteMarkers : List VersionEntry
deriving DecidableEq

/-- The side-effect channel an emitted action goes to. -/
inductive NukeChan where
  /-- dry run: `print(...)` of the intended action. -/
  | console
  /-- execute: a write below the local snapshot root. -/
  | filesystem
  /-- execute: a provider (destructive) call. -/
  | network
  /-- execute: only the run log records the action. -/
  | logOnly
deriving DecidableEq

/-- The intended actions of a bucket-nuke run, independent of how they
are effected. -/
inductive NukeAct where
  /-- a folder-marker key (ending in the separator) is recorded, never
  fetched. -/
  | skipFolderMarker (key versionId : String)
  /-- a download of one object version is scheduled. -/
  | scheduleDownload (key versionId : String)
  /-- a delete marker is recorded with no download attempt. -/
  | skipDeleteMarker (key versionId : String)
  /-- one batched `delete_objects` call on at most 1000 entries. -/
  | deleteBatch (objs : List VersionEntry)
  /-- the terminal `delete_bucket` call on the parent collection. -/
  | deleteBucket (bucket : String)
deriving DecidableEq

/-- Per-version step of the download loop (s3_bucket_nuke.py lines
61-74): a folder marker is skipped (printed in dry run, logged
otherwise); any other version is scheduled for download (printed in dry
run, downloaded to the filesystem otherwise). -/
def versionStep (dry_run : Bool) (v : VersionEntry) : NukeAct × NukeChan :=
  if endsWithSep v.key then
    (NukeAct.skipFolderMarker v.key v.versionId,
     if dry_run then NukeChan.console else NukeChan.logOnly)
  else
    (NukeAct.scheduleDownload v.key v.versionId,
     if dry_run then NukeChan.console else NukeChan.filesystem)

/-- Per-marker step of the delete-marker loop (lines 77-83): recorded,
never downloaded. -/
def markerStep (dry_run : Bool) (m : VersionEntry) : NukeAct × NukeChan :=
  (NukeAct.skipDeleteMarker m.key m.versionId,
   if dry_run then NukeChan.console else NukeChan.logOnly)

/-- Embedding of `download_objects` (versioned branch, lines 55-89): the
scheduled actions, in order — all pages' `Versions` entries first (the
first pass over the paginator), then all pages' `DeleteMarkers` (the
second pass re-drives the paginator from the start). -/
def download_objects (dry_run : Bool) (pages : List VPage) :
    List (NukeAct × NukeChan) :=
  (pages.flatMap fun page => page.versions.map (versionStep dry_run))
    ++ (pages.flatMap fun page => page.deleteMarkers.map (markerStep dry_run))

/-- The flattened delete worklist built at lines 126-138: for each page,
its `Versions` then its `DeleteMarkers`. -/
def to_delete (pages : List VPage) : List VersionEntry :=
  pages.flatMap fun page => page.versions ++ page.deleteMarkers

/-- Fuel-driven core of the batching loop `for i in range(0, len(l),
1000): batch = l[i : i + 1000]` (lines 142-143): emit the next slice of
at most 1000 entries and recurse on the rest.  Any `fuel ≥ l.length`
is enough, as every step consumes at least one element. -/
def batchSlicesAux {α : Type} : Nat → List α → List (List α)
  | 0, _ => []
  | _, [] => []
  | fuel + 1, x :: xs => ((x :: xs).take 1000) :: batchSlicesAux fuel ((x :: xs).drop 1000)

/-- The batch partition the destroyer issues, in order. -/
def batchSlices {α : Type} (l : List α) : List (List α) :=
  batchSlicesAux l.length l

/-- Embedding of `delete_objects_and_bucket` (versioned branch): one
`delete_objects` call per batch, in partition order, then the terminal
`delete_bucket` on the parent collection (lines 182-187).  In dry run
each batch's contents are printed instead. -/
def delete_objects_and_bucket (dry_run : Bool) (bucket : String)
    (pages : List VPage) : List (NukeAct × NukeChan) :=
  ((batchSlices (to_delete pages)).map fun batch =>
      (NukeAct.deleteBatch batch,
       if dry_run then NukeChan.console else NukeChan.network))
    ++ [(NukeAct.deleteBucket bucket,
         if dry_run then NukeChan.console else NukeChan.network)]

/-- The full ordered action trace of one bucket-nuke run: the export
phase then the destroy phase (main, lines 281-282). -/
def bucketNukeTrace (dry_run : Bool) (bucket : String) (pages : List VPage) :
    List (NukeAct × NukeChan) :=
  download_objects dry_run pages ++ delete_objects_and_bucket dry_run bucket pages

/-! Embedding of the `get_log_events` pagination loop of
`download_logs_for_group` (manage_cw_logs.py lines 89-126). -/

/-- One `get_log_events` response: the `events` messages and the
`nextForwardToken`. -/
structure LogPage where
  events : List String
  nextForwardToken : String

/-- Fuel-driven embedding of the while-loop: `resp n` is the provider's
response to the (n+1)-st call; `prevTok` models `kwargs.get("nextToken")`
(`none` before the first page, as the key is initially absent);
`repeated` is `repeated_token_count`.  Per iteration the code first
appends the page's events to the file, then compares the returned token
with the previous one — on the third consecutive repeat it logs one
warning and breaks — then updates the token and breaks silently when the
page was empty.  Returns `none` if the loop does not finish within
`fuel` iterations, else the events written and the number of stall
warnings logged. -/
def getLogEventsLoop (resp : Nat → LogPage) :
    Nat → Nat → Option String → Nat → List String →
    Option (List String × Nat)
  | 0, _, _, _, _ => none
  | fuel + 1, iter, prevTok, repeated, acc =>
    let page := resp iter
    let acc' := acc ++ page.events
    if prevTok = some page.nextForwardToken then
      if repeated + 1 ≥ 3 then
        some (acc', 1)
      else if page.events.isEmpty then
        some (acc', 0)
      else
        getLogEventsLoop resp fuel (iter + 1) (some page.nextForwardToken)
          (repeated + 1) acc'
    else if page.events.isEmpty then
      some (acc', 0)
    else
      getLogEventsLoop resp fuel (iter + 1) (some page.nextForwardToken) 0 acc'

/-- A run of the loop from its initial state (no token, zero repeats,
empty file). -/
def downloadStreamEvents (resp : Nat → LogPage) (fuel : Nat) :
    Option (List String × Nat) :=
  getLogEventsLoop resp fuel 0 none 0 []

/-- A provider that serves page 1 `(e1, t1)`, page 2 `(e2, t2)`, and
then stalls: every later fetch returns `(e3, t2)`, repeating page 2's
cursor. -/
def stallingProvider (e1 : List String) (t1 : String) (e2 : List String)
    (t2 : String) (e3 : List String) (n : Nat) : LogPage :=
  if n = 0 then ⟨e1, t1⟩ else if n = 1 then ⟨e2, t2⟩ else ⟨e3, t2⟩

/-- Example log events. -/
def evA : String := "a"

/-- Example log events. -/
def evB : String := "b"

/-- Example log events. -/
def evC : String := "c"

/-- Example cursor tokens. -/
def tok1 : String := "t1"

/-- Example cursor tokens. -/
def tok2 : String := "t2"

/-! Embedding of the `--wait` polling loop of `list_exports`
(manage_cw_logs.py lines 401-479). -/

/-- Fuel-driven embedding of the wait loop: `running n` tells whether
the (n+1)-st poll (a fresh `describe_export_tasks` listing) still
observes a task with status RUNNING.  While it does, the loop sleeps
`wait_time` seconds and doubles `wait_time`; it exits at the first poll
that observes none.  Returns the ordered list of sleep durations, or
`none` if the loop does not exit within `fuel` polls. -/
def listExportsWaitLoop (running : Nat → Bool) :
    Nat → Nat → Nat → Option (List Nat)
  | 0, _, _ => none
  | fuel + 1, pollIdx, wait_time =>
    if running pollIdx then
      match listExportsWaitLoop running fuel (pollIdx + 1) (wait_time * 2) with
      | none => none
      | some rest => some (wait_time :: rest)
    else
      some []

/-- A full `--wait` run: the initial `wait_time` is 60 seconds
(line 403). -/
def list_exports_wait (running : Nat → Bool) (fuel : Nat) :
    Option (List Nat) :=
  listExportsWaitLoop running fuel 0 60

/-- The wait sequence the spec predicts for a task that stays RUNNING
across `k` polls: 60, 120, 240, … (`60 * 2 ^ (n - 1)` before re-poll
`n`). -/
def predictedWaits (k : Nat) : List Nat :=
  (List.range k).map fun i => 60 * 2 ^ i

/-! Remaining concrete inputs used by witnesses. -/

/-- A re-run of the exporter on one handle against a local filesystem
holding the path set `fs`: the code of `download_file` has no
skip-if-exists check, so `fs` is never consulted. -/
def exportHandleRun (fs : List String) (download_dir key : String) :
    List DlEffect :=
  download_file download_dir key

/-- A concrete versioned page: one folder marker and one plain object
among the `Versions`, one delete marker. -/
def wpage : VPage :=
  ⟨[⟨exFolderKey, exV1⟩, ⟨exKey, exV1⟩], [⟨exKey, exV2⟩]⟩

/-- Example log-group name. -/
def grpA : String := "/aws/lambda/fnA"

/-- A task set that is still RUNNING at polls 1 and 2 and terminal from
poll 3 on. -/
def runTwo : Nat → Bool := fun n => decide (n < 2)

/-! Helper lemmas about the batch partition. -/

/-- With enough fuel, concatenating the emitted batches gives back the
input worklist. -/
theorem batchSlicesAux_flatten {α : Type} :
    ∀ (fuel : Nat) (l : List α), l.length ≤ fuel →
      (batchSlicesAux fuel l).flatten = l := by
  intro fuel
  induction fuel with
  | zero =>
    intro l h
    have hl : l = [] := List.length_eq_zero.mp (Nat.le_zero.mp h)
    subst hl
    rfl
  | succ n ih =>
    intro l h
    cases l with
    | nil => rfl
    | cons x xs =>
      rw [batchSlicesAux, List.flatten_cons,
        ih ((x :: xs).drop 1000)
          (by simp only [List.length_cons] at h
              simp only [List.length_drop, List.length_cons]
              omega)]
      exact List.take_append_drop 1000 (x :: xs)

/-- With enough fuel, the number of emitted batches is the ceiling of
`l.length / 1000`, computed as `(l.length + 999) / 1000`. -/
theorem batchSlicesAux_length {α : Type} :
    ∀ (fuel : Nat) (l : List α), l.length ≤ fuel →
      (batchSlicesAux fuel l).length = (l.length + 999) / 1000 := by
  intro fuel
  induction fuel with
  | zero =>
    intro l h
    have hl : l = [] := List.length_eq_zero.mp (Nat.le_zero.mp h)
    subst hl
    simp [batchSlicesAux]
  | succ n ih =>
    intro l h
    cases l with
    | nil => simp [batchSlicesAux]
    | cons x xs =>
      rw [batchSlicesAux, List.length_cons,
        ih ((x :: xs).drop 1000)
          (by simp only [List.length_cons] at h
              simp only [List.length_drop, List.length_cons]
              omega)]
      simp only [List.length_drop, List.length_cons]
      omega

/-- Every emitted batch has at most 1000 entries. -/
theorem batchSlicesAux_sizes {α : Type} :
    ∀ (fuel : Nat) (l : List α) (b : List α),
      b ∈ batchSlicesAux fuel l → b.length ≤ 1000 := by
  intro fuel
  induction fuel with
  | zero =>
    intro l b hb
    simp [batchSlicesAux] at hb
  | succ n ih =>
    intro l b hb
    cases l with
    | nil => simp [batchSlicesAux] at hb
    | cons x xs =>
      rw [batchSlicesAux] at hb
      rcases List.mem_cons.mp hb with hb | hb
      · subst hb
        simp [List.length_take]
      · exact ih _ _ hb

/-- C1: for every input worklist of at least one resource handle, the
batch destroyer's partition (the slicing loop at s3_bucket_nuke.py lines
142-143 and 167-168) consists of exactly `ceil(N / 1000)` batches —
computed as `(N + 999) / 1000` — each of size at most 1000, and the
concatenation of the batches in issue order is exactly the input list,
with no duplicates and no omissions. -/
theorem batch_destroyer_partitions {α : Type} (l : List α)
    (h : 1 ≤ l.length) :
    (batchSlices l).length = (l.length + 999) / 1000
    ∧ (∀ b ∈ batchSlices l, b.length ≤ 1000)
    ∧ (batchSlices l).flatten = l := by
  refine ⟨batchSlicesAux_length l.length l le_rfl,
    fun b hb => batchSlicesAux_sizes l.length l b hb,
    batchSlicesAux_flatten l.length l le_rfl⟩

/-- Witness for C1 at the three-handle worklist `[10, 20, 30]`: one
batch of size three whose concatenation is the input. -/
theorem batch_destroyer_partitions_witness :
    (1 ≤ ([10, 20, 30] : List Nat).length)
    ∧ ((batchSlices ([10, 20, 30] : List Nat)).length
        = (([10, 20, 30] : List Nat).length + 999) / 1000
      ∧ (∀ b ∈ batchSlices ([10, 20, 30] : List Nat), b.length ≤ 1000)
      ∧ (batchSlices ([10, 20, 30] : List Nat)).flatten = [10, 20, 30]) :=
  ⟨by decide, batch_destroyer_partitions [10, 20, 30] (by decide)⟩

/-- C2: the local snapshot path of `download_file_versioned` is
`os.path.join(download_dir, key)` — the version id does not enter it —
so the two distinct versions `v1 ≠ v2` of the same key are written to
the one path, contradicting the claimed 1:1 derivation from
`(collectionId, key, versionId)`: two workers do contend for that path. -/
theorem versioned_download_path_collision :
    download_path_versioned exBucket exKey exV1
      = download_path_versioned exBucket exKey exV2
    ∧ exV1 ≠ exV2 :=
  ⟨rfl, by decide⟩

/-- C10: every invocation of `delete_log_group` reaches the
unconditional `sys.exit(1)` after the `try`/`except` block, whether the
provider delete succeeded or raised. -/
theorem delete_log_group_always_exits_one (callSucceeds : Bool) :
    (delete_log_group callSucceeds).2 = 1 := by
  cases callSucceeds <;> rfl

/-- C6: whenever the retention guard's predicate lets it proceed —
`--if-never` absent, or the current retention unset — the event trace is
exactly the optional describe call followed by the full-lookback
snapshot export and only then the `put_retention_policy` mutation: the
policy write never precedes the completed export. -/
theorem retention_guard_export_precedes_mutation (lg : String) (ret : Int)
    (if_never : Bool) (groups : List LogGroup)
    (h : if_never = false ∨ currentRetention lg groups = none) :
    (set_retention lg ret if_never groups).2
      = (if if_never then [RetEvent.describeLogGroups lg] else [])
        ++ [RetEvent.downloadAllLogs lg download_days,
            RetEvent.putRetentionPolicy lg ret] := by
  rcases h with h | h
  · subst h
    simp [set_retention]
  · cases if_never <;> simp [set_retention, h]

/-- Witness for C6: the guard on a group with unset retention exports
before mutating. -/
theorem retention_guard_export_precedes_mutation_witness :
    (set_retention grpA 30 true []).2
      = (if true then [RetEvent.describeLogGroups grpA] else [])
        ++ [RetEvent.downloadAllLogs grpA download_days,
            RetEvent.putRetentionPolicy grpA 30] :=
  retention_guard_export_precedes_mutation grpA 30 true []
    (Or.inr (by decide))

/-- C7: the retention guard invoked with `--if-never` on a group whose
retention is already set returns skipped, and its trace is the lone
describe call: it performs no export (download) call and no policy
mutation. -/
theorem retention_guard_skips_when_set (lg : String) (ret : Int)
    (groups : List LogGroup) (d : Nat)
    (h : currentRetention lg groups = some d) :
    (set_retention lg ret true groups).1 = RetStatus.skipped
    ∧ (set_retention lg ret true groups).2 = [RetEvent.describeLogGroups lg]
    ∧ (∀ g days, RetEvent.downloadAllLogs g days
        ∉ (set_retention lg ret true groups).2)
    ∧ (∀ g days, RetEvent.putRetentionPolicy g days
        ∉ (set_retention lg ret true groups).2) := by
  refine ⟨?_, ?_, ?_, ?_⟩ <;> simp [set_retention, h]

/-- Witness for C7: a group whose retention is already 30 days is
skipped with no export event. -/
theorem retention_guard_skips_when_set_witness :
    (set_retention grpA 14 true [⟨grpA, some 30⟩]).1 = RetStatus.skipped :=
  (retention_guard_skips_when_set grpA 14 [⟨grpA, some 30⟩] 30 (by decide)).1

/-- C4 counterexample: at the concrete filesystem that already holds the
target path of the handle `(mybucket, file.txt)`, a re-run of the
exporter still emits the download write to that very path — the source
has no skip-if-exists check, so the claimed skip does not happen. -/
theorem export_rerun_not_skipped_counterexample :
    download_path exBucket exKey ∈ [download_path exBucket exKey]
    ∧ DlEffect.fsWrite (download_path exBucket exKey)
        ∈ exportHandleRun [download_path exBucket exKey] exBucket exKey := by
  constructor
  · simp
  · simp [exportHandleRun, download_file]

/-- C4 amended: re-running the export re-downloads every handle — the
download functions never consult the local filesystem, so even when the
target path is already present the run writes to it again, overwriting
the previously captured file rather than skipping it (for versioned
handles the write lands on the same version-independent path). -/
theorem export_rerun_redownloads (fs : List String) (dir key vid : String)
    (h : download_path dir key ∈ fs) :
    DlEffect.fsWrite (download_path dir key) ∈ exportHandleRun fs dir key
    ∧ DlEffect.fsWrite (download_path_versioned dir key vid)
        ∈ download_file_versioned dir key vid := by
  constructor
  · simp [exportHandleRun, download_file]
  · simp [download_file_versioned]

/-- Witness for C4's amended statement at the handle
`(mybucket, logs/, v1)` over a filesystem already holding its path. -/
theorem export_rerun_redownloads_witness :
    DlEffect.fsWrite (download_path exBucket exFolderKey)
      ∈ exportHandleRun [download_path exBucket exFolderKey] exBucket
          exFolderKey :=
  (export_rerun_redownloads [download_path exBucket exFolderKey] exBucket
    exFolderKey exV1 (by simp)).1

/-! Helper lemmas about the per-entry steps of the export phase. -/

/-- The intended action of a version step does not depend on the mode. -/
theorem versionStep_fst (d : Bool) (v : VersionEntry) :
    (versionStep d v).1
      = if endsWithSep v.key then NukeAct.skipFolderMarker v.key v.versionId
        else NukeAct.scheduleDownload v.key v.versionId := by
  unfold versionStep
  split <;> simp_all

/-- The intended action of a delete-marker step does not depend on the
mode. -/
theorem markerStep_fst (d : Bool) (m : VersionEntry) :
    (markerStep d m).1 = NukeAct.skipDeleteMarker m.key m.versionId := rfl

/-- In dry run a version step goes to the console. -/
theorem versionStep_snd_true (v : VersionEntry) :
    (versionStep true v).2 = NukeChan.console := by
  unfold versionStep
  split <;> rfl

/-- In execute mode a version step never goes to the console. -/
theorem versionStep_snd_false (v : VersionEntry) :
    (versionStep false v).2 ≠ NukeChan.console := by
  unfold versionStep
  split <;> simp

/-- The intended actions of the export phase, independent of the mode:
the folder-marker/download decision per version entry, then a skip per
delete marker. -/
theorem download_objects_map_fst (d : Bool) (pages : List VPage) :
    (download_objects d pages).map Prod.fst
      = (pages.flatMap fun p => p.versions.map fun e =>
          if endsWithSep e.key then NukeAct.skipFolderMarker e.key e.versionId
          else NukeAct.scheduleDownload e.key e.versionId)
        ++ (pages.flatMap fun p => p.deleteMarkers.map fun m =>
            NukeAct.skipDeleteMarker m.key m.versionId) := by
  simp [download_objects, List.map_flatMap, List.map_map, Function.comp_def,
    versionStep_fst, markerStep_fst]

/-- The intended actions of the destroy phase, independent of the mode:
the batches in partition order, then the parent-collection delete. -/
theorem delete_objects_and_bucket_map_fst (d : Bool) (bucket : String)
    (pages : List VPage) :
    (delete_objects_and_bucket d bucket pages).map Prod.fst
      = (batchSlices (to_delete pages)).map NukeAct.deleteBatch
        ++ [NukeAct.deleteBucket bucket] := by
  simp [delete_objects_and_bucket, List.map_map, Function.comp_def]

/-- C3: for a fixed input enumeration, the dry-run trace and the execute
trace carry the same intended actions in the same order — same
downloads scheduled or skipped, same batches with the same contents,
same parent-collection delete — and differ only in the side-effect
channel: every dry-run action goes to the console, no execute action
does. -/
theorem dry_run_execute_same_actions (bucket : String) (pages : List VPage) :
    ((bucketNukeTrace true bucket pages).map Prod.fst
      = (bucketNukeTrace false bucket pages).map Prod.fst)
    ∧ (∀ ac ∈ bucketNukeTrace true bucket pages, ac.2 = NukeChan.console)
    ∧ (∀ ac ∈ bucketNukeTrace false bucket pages,
        ac.2 ≠ NukeChan.console) := by
  refine ⟨?_, ?_, ?_⟩
  · simp [bucketNukeTrace, download_objects_map_fst,
      delete_objects_and_bucket_map_fst]
  · intro ac hac
    simp only [bucketNukeTrace, download_objects, delete_objects_and_bucket,
      List.mem_append, List.mem_flatMap, List.mem_map, List.mem_singleton,
      List.mem_cons] at hac
    rcases hac with ((⟨p, _, e, _, he⟩ | ⟨p, _, m, _, hm⟩) | hd)
    · rw [← he]
      exact versionStep_snd_true e
    · rw [← hm]
      rfl
    · rcases hd with ⟨b, _, hb⟩ | (hb | hb)
      · rw [← hb]
        simp
      · rw [hb]
        simp
      · simp at hb
  · intro ac hac
    simp only [bucketNukeTrace, download_objects, delete_objects_and_bucket,
      List.mem_append, List.mem_flatMap, List.mem_map, List.mem_singleton,
      List.mem_cons] at hac
    rcases hac with ((⟨p, _, e, _, he⟩ | ⟨p, _, m, _, hm⟩) | hd)
    · rw [← he]
      exact versionStep_snd_false e
    · rw [← hm]
      simp [markerStep]
    · rcases hd with ⟨b, _, hb⟩ | (hb | hb)
      · rw [← hb]
        simp
      · rw [hb]
        simp
      · simp at hb

/-- Witness for C3 at a one-page enumeration: the channel facts applied
to the first dry-run and execute actions. -/
theorem dry_run_execute_same_actions_witness :
    ((bucketNukeTrace true exBucket [wpage]).map Prod.fst
      = (bucketNukeTrace false exBucket [wpage]).map Prod.fst)
    ∧ (versionStep true ⟨exFolderKey, exV1⟩).2 = NukeChan.console
    ∧ (versionStep false ⟨exKey, exV1⟩).2 ≠ NukeChan.console :=
  ⟨(dry_run_execute_same_actions exBucket [wpage]).1,
   (dry_run_execute_same_actions exBucket [wpage]).2.1
     (versionStep true ⟨exFolderKey, exV1⟩) (by decide),
   (dry_run_execute_same_actions exBucket [wpage]).2.2
     (versionStep false ⟨exKey, exV1⟩) (by decide)⟩

/-- C8: in every export of a versioned collection, every scheduled
download originates from a `Versions` entry whose key is not a folder
marker — so delete markers and folder markers are never fetched — while
every delete marker and every folder-marker version entry is recorded
in the trace as its skip action. -/
theorem markers_recorded_never_fetched (dry_run : Bool) (pages : List VPage) :
    (∀ k v, NukeAct.scheduleDownload k v
        ∈ (download_objects dry_run pages).map Prod.fst →
      (∃ p ∈ pages, (⟨k, v⟩ : VersionEntry) ∈ p.versions)
        ∧ endsWithSep k = false)
    ∧ (∀ p ∈ pages, ∀ m ∈ p.deleteMarkers,
        NukeAct.skipDeleteMarker m.key m.versionId
          ∈ (download_objects dry_run pages).map Prod.fst)
    ∧ (∀ p ∈ pages, ∀ e ∈ p.versions, endsWithSep e.key = true →
        NukeAct.skipFolderMarker e.key e.versionId
          ∈ (download_objects dry_run pages).map Prod.fst) := by
  refine ⟨?_, ?_, ?_⟩
  · intro k v h
    rw [download_objects_map_fst] at h
    rcases List.mem_append.mp h with h | h
    · rcases List.mem_flatMap.mp h with ⟨p, hp, hmem⟩
      rcases List.mem_map.mp hmem with ⟨e, he, heq⟩
      by_cases hsep : endsWithSep e.key
      · simp [hsep] at heq
      · simp only [hsep, if_neg, Bool.false_eq_true, ite_false,
          NukeAct.scheduleDownload.injEq] at heq
        rcases heq with ⟨hk, hv⟩
        subst hk
        subst hv
        exact ⟨⟨p, hp, he⟩, by simpa using hsep⟩
    · rcases List.mem_flatMap.mp h with ⟨p, _, hmem⟩
      rcases List.mem_map.mp hmem with ⟨m, _, heq⟩
      simp at heq
  · intro p hp m hm
    rw [download_objects_map_fst]
    refine List.mem_append.mpr (Or.inr ?_)
    exact List.mem_flatMap.mpr ⟨p, hp, List.mem_map.mpr ⟨m, hm, rfl⟩⟩
  · intro p hp e he hsep
    rw [download_objects_map_fst]
    refine List.mem_append.mpr (Or.inl ?_)
    exact List.mem_flatMap.mpr ⟨p, hp, List.mem_map.mpr ⟨e, he, by simp [hsep]⟩⟩

/-- Witness for C8 at the one-page enumeration holding a folder marker,
a plain object and a delete marker. -/
theorem markers_recorded_never_fetched_witness :
    ((∃ p ∈ [wpage], (⟨exKey, exV1⟩ : VersionEntry) ∈ p.versions)
      ∧ endsWithSep exKey = false)
    ∧ NukeAct.skipDeleteMarker exKey exV2
        ∈ (download_objects true [wpage]).map Prod.fst
    ∧ NukeAct.skipFolderMarker exFolderKey exV1
        ∈ (download_objects true [wpage]).map Prod.fst :=
  ⟨(markers_recorded_never_fetched true [wpage]).1 exKey exV1 (by decide),
   (markers_recorded_never_fetched true [wpage]).2.1 wpage (by decide)
     ⟨exKey, exV2⟩ (by decide),
   (markers_recorded_never_fetched true [wpage]).2.2 wpage (by decide)
     ⟨exFolderKey, exV1⟩ (by decide) (by decide)⟩

/-- C5 counterexample: under the claimed scenario — page 1 `(a, t1)`,
page 2 `(b, t2)`, then the cursor `t2` repeated on three consecutive
fetches each carrying the event `c` — the enumeration yields
`[a, b, c, c, c]`, not only the pages before the repeat point `[a, b]`:
the code appends each page's events to the file before it examines the
returned cursor, so the three stalled fetches each contribute their
events. -/
theorem stall_guard_counterexample :
    downloadStreamEvents (stallingProvider [evA] tok1 [evB] tok2 [evC]) 10
      = some ([evA, evB, evC, evC, evC], 1)
    ∧ ([evA, evB, evC, evC, evC] : List String) ≠ [evA, evB] := by
  constructor
  · decide
  · decide

/-- C5 amended: in an enumeration whose provider serves two advancing
nonempty pages and then stalls on page 2's cursor with a nonempty page,
the loop terminates at the third consecutive repeat, logging exactly one
stall warning, and yields the pages before the repeat point plus the
stalled page's events once per repeated fetch (three times) — the
stalled events are not excluded. -/
theorem stall_guard_terminates_with_one_warning (e1 e2 e3 : List String)
    (t1 t2 : String) (h1 : e1 ≠ []) (h2 : e2 ≠ []) (h3 : e3 ≠ [])
    (ht : t1 ≠ t2) :
    downloadStreamEvents (stallingProvider e1 t1 e2 t2 e3) 5
      = some (e1 ++ e2 ++ e3 ++ e3 ++ e3, 1) := by
  simp [downloadStreamEvents, getLogEventsLoop, stallingProvider, h1, h2, h3,
    ht, List.isEmpty_iff]

/-- Witness for C5's amended statement at singleton pages. -/
theorem stall_guard_terminates_with_one_warning_witness :
    downloadStreamEvents (stallingProvider [evB] tok2 [evC] tok1 [evA]) 5
      = some ([evB] ++ [evC] ++ [evA] ++ [evA] ++ [evA], 1) :=
  stall_guard_terminates_with_one_warning [evB] [evC] [evA] tok2 tok1
    (by decide) (by decide) (by decide) (by decide)

/-- While every poll still observes a RUNNING task, the wait-loop's
sleeps from poll index `p` at current wait `w` are `w, 2w, 4w, …` until
the first poll that observes none. -/
theorem listExportsWaitLoop_spec (running : Nat → Bool) :
    ∀ (k fuel p w : Nat), k < fuel →
      (∀ i, i < k → running (p + i) = true) → running (p + k) = false →
      listExportsWaitLoop running fuel p w
        = some ((List.range k).map fun i => w * 2 ^ i) := by
  intro k
  induction k with
  | zero =>
    intro fuel p w hf h1 h2
    cases fuel with
    | zero => omega
    | succ f =>
      rw [listExportsWaitLoop]
      simp only [Nat.add_zero] at h2
      simp [h2]
  | succ k ih =>
    intro fuel p w hf h1 h2
    cases fuel with
    | zero => omega
    | succ f =>
      have hp : running p = true := by simpa using h1 0 (Nat.succ_pos k)
      have hrec := ih f (p + 1) (w * 2) (by omega)
        (fun i hi => by
          have hx := h1 (i + 1) (by omega)
          have hpi : p + (i + 1) = p + 1 + i := by omega
          rwa [hpi] at hx)
        (by
          have hpk : p + (k + 1) = p + 1 + k := by omega
          rwa [hpk] at h2)
      rw [listExportsWaitLoop, hp, hrec]
      simp only [if_true, List.range_succ_eq_map, List.map_cons, List.map_map,
        Function.comp_def, pow_zero, Nat.mul_one]
      refine congrArg some (List.cons_eq_cons.mpr ⟨rfl, ?_⟩)
      refine List.map_congr_left ?_
      intro i _
      rw [Nat.pow_succ]
      ring

/-- C9: for a wait-until-terminal run whose polls 1..k still observe a
RUNNING task and whose poll k+1 does not, the loop performs exactly the
sleeps 60, 120, 240, …: the wait before re-poll n (the n-th recorded
sleep, 0-indexed entry n-1) equals `60 * 2 ^ (n - 1)`; these waits are
non-decreasing; and the loop exits at the first poll that observes no
RUNNING task. -/
theorem async_poller_backoff (running : Nat → Bool) (k fuel : Nat)
    (hfuel : k < fuel) (hrun : ∀ i, i < k → running i = true)
    (hstop : running k = false) :
    list_exports_wait running fuel = some (predictedWaits k)
    ∧ (∀ i (hi : i < (predictedWaits k).length),
        (predictedWaits k).get ⟨i, hi⟩ = 60 * 2 ^ i)
    ∧ (∀ i j (hi : i < (predictedWaits k).length)
        (hj : j < (predictedWaits k).length), i ≤ j →
        (predictedWaits k).get ⟨i, hi⟩ ≤ (predictedWaits k).get ⟨j, hj⟩) := by
  refine ⟨?_, ?_, ?_⟩
  · unfold list_exports_wait predictedWaits
    exact listExportsWaitLoop_spec running k fuel 0 60 hfuel
      (fun i hi => by simpa using hrun i hi) (by simpa using hstop)
  · intro i hi
    simp [predictedWaits]
  · intro i j hi hj hij
    simp only [predictedWaits, List.get_eq_getElem, List.getElem_map,
      List.getElem_range]
    exact Nat.mul_le_mul_left 60 (Nat.pow_le_pow_right (by norm_num) hij)

/-- Witness for C9: a task RUNNING across the first two polls produces
the sleeps 60 then 120 and the loop then exits. -/
theorem async_poller_backoff_witness :
    list_exports_wait runTwo 5 = some (predictedWaits 2) :=
  (async_poller_backoff runTwo 2 5 (by decide)
    (fun i hi => by simpa [runTwo] using hi) (by decide)).1
